import Mathlib

/-!
Verification development for the TracksManager client (TypeScript/React).

Shallow embedding of the track-list controller (`TracksList`), the thin
API client (`services/api`), the create/edit dialog file-attachment
validation, and the modal state helper (`useModalState`). React state
hooks are modelled by explicit state records; every event handler becomes
a pure state transformer. The outcome of each remote HTTP call is passed
in as an `Except String` value, so that both the success and the failure
continuation of a handler are captured.
-/

set_option maxHeartbeats 1000000

/-- One catalog entry as rendered by the list (the `TrackCardProps` type):
id, title, artist, album, genres, coverImage, optional audioFile
reference, createdAt. -/
structure Track where
  id : String
  title : String
  artist : String
  album : String
  genres : List String
  coverImage : String
  audioFile : Option String
  createdAt : String
deriving DecidableEq, Repr

/-- Pagination metadata kept by the controller (`paginationMeta` state):
`{ total, totalPages }`, numbers modelled as `Int`. -/
structure PaginationMeta where
  total : Int
  totalPages : Int
deriving DecidableEq, Repr

/-- The query-parameter record (`params` state) of the controller. -/
structure Params where
  search : String
  sort : String
  order : String
  genre : String
  artist : String
  page : Int
  limit : Int
  totalPages : Int
deriving DecidableEq, Repr

/-- A partial update of `Params` (the TypeScript argument
`Partial<typeof params>` of `handleSearchParams`): a field that is
`none` is absent from the update and keeps its previous value. -/
structure ParamsUpdate where
  search : Option String := none
  sort : Option String := none
  order : Option String := none
  genre : Option String := none
  artist : Option String := none
  page : Option Int := none
  limit : Option Int := none
  totalPages : Option Int := none
deriving DecidableEq, Repr

/-- Spreading a partial update over a previous `Params` record
(`{ ...prev, ...newParams }`). -/
def mergeParams (prev : Params) (np : ParamsUpdate) : Params :=
  { search := np.search.getD prev.search
    sort := np.sort.getD prev.sort
    order := np.order.getD prev.order
    genre := np.genre.getD prev.genre
    artist := np.artist.getD prev.artist
    page := np.page.getD prev.page
    limit := np.limit.getD prev.limit
    totalPages := np.totalPages.getD prev.totalPages }

/-- The state owned by the `TracksList` component: track collection,
pagination metadata, loading flag, error slot, selection set, playback
pointer, query parameters and the refresh counter. -/
structure ListState where
  tracks : List Track
  paginationMeta : PaginationMeta
  isLoading : Bool
  error : Option String
  selectedTrackIds : List String
  playingTrackId : Option String
  params : Params
  refreshTrigger : Nat
deriving DecidableEq, Repr

/-- The `useState` initial values of `TracksList`. -/
def initialState : ListState :=
  { tracks := []
    paginationMeta := { total := 0, totalPages := 0 }
    isLoading := false
    error := none
    selectedTrackIds := []
    playingTrackId := none
    params :=
      { search := "", sort := "title", order := "asc", genre := ""
        artist := "", page := 1, limit := 10, totalPages := 1 }
    refreshTrigger := 0 }

/-- Payload of a successful list response: `data.data` and `data.meta`. -/
structure FetchData where
  data : List Track
  meta : PaginationMeta
deriving DecidableEq, Repr

/-- `services/api.deleteTrack`: `return api.delete(...)` with no
try/catch, so the remote outcome is propagated to the caller verbatim. -/
def deleteTrack (remote : Except String Unit) : Except String Unit :=
  remote

/-- `services/api.deleteTracks`: the `await api.post` is wrapped in
`try { ... } catch (error) { console.log(error) }` and the function
returns void on both paths, so a remote failure is swallowed and the
caller always observes success. -/
def deleteTracks (remote : Except String Unit) : Except String Unit :=
  match remote with
  | Except.ok _ => Except.ok ()
  | Except.error _ => Except.ok ()

/-- `fetchTracks`, given the outcome of the `getTracks` request. On
success it replaces the collection and the pagination metadata (with
`totalPages || 1` substituting 1 for a falsy 0); on failure it records
the error message and empties the collection. Both paths clear the
loading flag. -/
def fetchTracksResult (r : Except String FetchData) (s : ListState) : ListState :=
  match r with
  | Except.ok d =>
      { s with
        isLoading := false
        error := none
        tracks := d.data
        paginationMeta :=
          { total := d.meta.total
            totalPages := if d.meta.totalPages = 0 then 1 else d.meta.totalPages } }
  | Except.error msg =>
      { s with isLoading := false, error := some msg, tracks := [] }

/-- `handleSearchParams`: `setParams((prev) => ({ ...prev, ...newParams,
page: 1 }))` — the spread of the partial update is followed by an
unconditional `page: 1`. -/
def handleSearchParams (np : ParamsUpdate) (s : ListState) : ListState :=
  { s with params := { mergeParams s.params np with page := 1 } }

/-- `handlePageChange`: `setParams((prev) => ({ ...prev, page: newPage }))`. -/
def handlePageChange (newPage : Int) (s : ListState) : ListState :=
  { s with params := { s.params with page := newPage } }

/-- `handleSelectTrack`: toggles one id in the selection list — filtered
out when present, appended when absent. -/
def handleSelectTrack (id : String) (s : ListState) : ListState :=
  { s with
    selectedTrackIds :=
      if s.selectedTrackIds.contains id then
        s.selectedTrackIds.filter (fun trackId => !(trackId == id))
      else
        s.selectedTrackIds ++ [id] }

/-- `handleSelectAll`: clears the selection when every visible track is
already selected, otherwise selects the ids of all visible tracks. -/
def handleSelectAll (s : ListState) : ListState :=
  if s.tracks.all (fun track => s.selectedTrackIds.contains track.id) then
    { s with selectedTrackIds := [] }
  else
    { s with selectedTrackIds := s.tracks.map Track.id }

/-- `handlePlayTrack`: clears the playback pointer when invoked with the
currently playing id, otherwise sets the pointer to the given id. -/
def handlePlayTrack (id : String) (s : ListState) : ListState :=
  if s.playingTrackId = some id then
    { s with playingTrackId := none }
  else
    { s with playingTrackId := some id }

/-- The confirmed action of `handleDeleteTrack`: optimistically filters
the track out of the collection, decrements `total` floored at 0,
removes the id from the selection when present, then awaits the remote
`deleteTrack`; on a propagated failure it additionally sets the error
message and bumps the refresh counter (the optimistic changes stay). -/
def handleDeleteTrack (id : String) (remote : Except String Unit) (s : ListState) : ListState :=
  let s1 : ListState :=
    { s with
      tracks := s.tracks.filter (fun track => !(track.id == id))
      paginationMeta :=
        { s.paginationMeta with total := max 0 (s.paginationMeta.total - 1) } }
  let s2 : ListState :=
    if s.selectedTrackIds.contains id then
      { s1 with
        selectedTrackIds := s1.selectedTrackIds.filter (fun trackId => !(trackId == id)) }
    else s1
  match deleteTrack remote with
  | Except.ok _ => s2
  | Except.error _ =>
      { s2 with
        error := some "Failed to delete track. Please try again."
        refreshTrigger := s2.refreshTrigger + 1 }

/-- The confirmed action of `handleBulkDelete`: no-op on an empty
selection; otherwise optimistically keeps only the unselected tracks,
decrements `total` by the selection length floored at 0, clears the
selection, awaits the remote `deleteTracks` call, and then — when the
kept collection is empty — steps back a page (page > 1) or bumps the
refresh counter (first page). The catch branch records an error and
bumps the refresh counter. -/
def handleBulkDelete (remote : Except String Unit) (s : ListState) : ListState :=
  if s.selectedTrackIds.length = 0 then s
  else
    let tracksToKeep : List Track :=
      s.tracks.filter (fun track => !(s.selectedTrackIds.contains track.id))
    let s1 : ListState :=
      { s with
        tracks := tracksToKeep
        paginationMeta :=
          { s.paginationMeta with
            total := max 0 (s.paginationMeta.total - s.selectedTrackIds.length) }
        selectedTrackIds := [] }
    match deleteTracks remote with
    | Except.ok _ =>
        if tracksToKeep.length = 0 ∧ s.params.page > 1 then
          { s1 with params := { s1.params with page := s1.params.page - 1 } }
        else if tracksToKeep.length = 0 then
          { s1 with refreshTrigger := s1.refreshTrigger + 1 }
        else s1
    | Except.error _ =>
        { s1 with
          error := some "Failed to delete selected tracks. Please try again."
          refreshTrigger := s1.refreshTrigger + 1 }

/-- States of the `TracksList` controller reachable through its
handlers, with the argument constraints the rendered UI enforces:
per-row select, delete and play callbacks receive the id of a visible
track, and the play button is disabled for a track without an audio
file. Remote outcomes and fetched data are unconstrained. -/
inductive Reach : ListState → Prop
  | init : Reach initialState
  | fetch (r : Except String FetchData) (s : ListState) :
      Reach s → Reach (fetchTracksResult r s)
  | search (np : ParamsUpdate) (s : ListState) :
      Reach s → Reach (handleSearchParams np s)
  | page (n : Int) (s : ListState) :
      Reach s → Reach (handlePageChange n s)
  | selectTrack (id : String) (s : ListState) :
      Reach s → id ∈ s.tracks.map Track.id → Reach (handleSelectTrack id s)
  | selectAll (s : ListState) :
      Reach s → Reach (handleSelectAll s)
  | play (id : String) (s : ListState) :
      Reach s → (∃ t ∈ s.tracks, t.id = id ∧ t.audioFile.isSome) →
      Reach (handlePlayTrack id s)
  | deleteOne (id : String) (remote : Except String Unit) (s : ListState) :
      Reach s → id ∈ s.tracks.map Track.id →
      Reach (handleDeleteTrack id remote s)
  | bulkDelete (remote : Except String Unit) (s : ListState) :
      Reach s → Reach (handleBulkDelete remote s)

/-- A locally chosen file as the dialogs consult it: its reported media
type and its size in bytes. -/
structure LocalFile where
  mediaType : String
  size : Nat
deriving DecidableEq, Repr

/-- The draft record (`form` state) shared by the create and the edit
dialog: metadata fields, the genre list and at most one pending local
audio file. -/
structure TrackForm where
  title : String
  artist : String
  album : String
  genres : List String
  coverImage : String
  audioFile : Option LocalFile
deriving DecidableEq, Repr

/-- The part of a dialog state that `handleFileChange` touches: the
draft record and the inline error slot. -/
structure DialogState where
  form : TrackForm
  error : Option String
deriving DecidableEq, Repr

namespace CreateTrackModal

/-- `CreateTrackModal.handleFileChange`: with no file selected nothing
happens; a file whose type is not in `["audio/mpeg", "audio/wav"]` or
whose size exceeds `10 * 1024 * 1024` bytes only sets an error message;
otherwise the file is stored in the draft and the error slot cleared. -/
def handleFileChange (file : Option LocalFile) (s : DialogState) : DialogState :=
  match file with
  | none => s
  | some f =>
      if !(["audio/mpeg", "audio/wav"].contains f.mediaType) then
        { s with error := some "File must be mp3 or wav" }
      else if f.size > 10 * 1024 * 1024 then
        { s with error := some "File size must be less than 10MB" }
      else
        { s with form := { s.form with audioFile := some f }, error := none }

end CreateTrackModal

namespace EditTrackModal

/-- `EditTrackModal.handleFileChange`: textually the same checks as in
the create dialog — allow-list `["audio/mpeg", "audio/wav"]`, size bound
`10 * 1024 * 1024` bytes. -/
def handleFileChange (file : Option LocalFile) (s : DialogState) : DialogState :=
  match file with
  | none => s
  | some f =>
      if !(["audio/mpeg", "audio/wav"].contains f.mediaType) then
        { s with error := some "File must be mp3 or wav" }
      else if f.size > 10 * 1024 * 1024 then
        { s with error := some "File size must be less than 10MB" }
      else
        { s with form := { s.form with audioFile := some f }, error := none }

end EditTrackModal

namespace useModalState

/-- `useModalState`: the boolean held by `useState(false)`. -/
def initialIsOpen : Bool := false

/-- `open`: `setIsOpen(true)` — the next state regardless of the prior one. -/
def «open» (_prev : Bool) : Bool := true

/-- `close`: `setIsOpen(false)` — the next state regardless of the prior one. -/
def close (_prev : Bool) : Bool := false

/-- `toggle`: `setIsOpen((prev) => !prev)`. -/
def toggle (prev : Bool) : Bool := !prev

end useModalState

/-- Filtering tracks by a predicate on their id commutes with projecting
the ids. -/
lemma map_filter_by_id (p : String → Bool) (l : List Track) :
    (l.filter (fun t => p t.id)).map Track.id = (l.map Track.id).filter p := by
  induction l with
  | nil => rfl
  | cons t ts ih => cases hp : p t.id <;> simp [List.filter_cons, hp, ih]

/-- Filtering out an element that is not present leaves a list unchanged. -/
lemma filter_ne_of_not_mem (l : List String) (a : String) (h : a ∉ l) :
    l.filter (fun x => !(x == a)) = l := by
  refine List.filter_eq_self.mpr (fun x hx => ?_)
  simp
  rintro rfl
  exact h hx

/-- Removing a member of a duplicate-free list shortens it by exactly one. -/
lemma length_filter_remove_one (l : List String) (a : String)
    (hnd : l.Nodup) (hm : a ∈ l) :
    (l.filter (fun x => !(x == a))).length + 1 = l.length := by
  induction l with
  | nil => cases hm
  | cons b bs ih =>
      rcases List.mem_cons.mp hm with h | h
      · subst h
        have hnotin : a ∉ bs := (List.nodup_cons.mp hnd).1
        simp [List.filter_cons, filter_ne_of_not_mem bs a hnotin]
      · have hb : b ≠ a := by
          rintro rfl
          exact (List.nodup_cons.mp hnd).1 h
        have hrec := ih (List.nodup_cons.mp hnd).2 h
        simp [List.filter_cons, hb]
        omega

/-- Keeping exactly the members of a duplicate-free sublist of a
duplicate-free list keeps exactly as many elements as the sublist has. -/
lemma length_filter_contains (S ids : List String) (hS : S.Nodup)
    (hids : ids.Nodup) (hsub : ∀ x ∈ S, x ∈ ids) :
    (ids.filter (fun x => S.contains x)).length = S.length := by
  have h1 : (ids.filter (fun x => S.contains x)).Nodup := hids.filter _
  have h2 : ∀ x, x ∈ ids.filter (fun x => S.contains x) ↔ x ∈ S := by
    intro x
    rw [List.mem_filter]
    constructor
    · rintro ⟨-, hc⟩
      exact List.elem_iff.mp hc
    · intro hx
      exact ⟨hsub x hx, List.elem_iff.mpr hx⟩
  exact List.Perm.length_eq ((List.perm_ext_iff_of_nodup h1 hS).mpr h2)

/-- Projections of `handleBulkDelete` on a nonempty selection: the kept
tracks are the unselected ones, the selection is cleared, and the total
is decremented by the selection length, floored at 0 — on every remote
outcome and on every page branch. -/
lemma handleBulkDelete_proj (s : ListState) (r : Except String Unit)
    (hne : s.selectedTrackIds ≠ []) :
    (handleBulkDelete r s).tracks
      = s.tracks.filter (fun track => !(s.selectedTrackIds.contains track.id)) ∧
    (handleBulkDelete r s).selectedTrackIds = [] ∧
    (handleBulkDelete r s).paginationMeta.total
      = max 0 (s.paginationMeta.total - s.selectedTrackIds.length) := by
  have hlen : ¬ s.selectedTrackIds.length = 0 := by
    simpa [List.length_eq_zero] using hne
  unfold handleBulkDelete
  rw [if_neg hlen]
  cases r <;> simp [deleteTracks] <;> split_ifs <;> simp

/-- Claim C10: in the modal state helper, `open` always yields the open
state and `close` always yields the closed state, independently of the
prior state, and `toggle` is an involution. -/
theorem modal_state_algebra (prev : Bool) :
    useModalState.«open» prev = true ∧
    useModalState.close prev = false ∧
    useModalState.toggle (useModalState.toggle prev) = prev := by
  refine ⟨rfl, rfl, ?_⟩
  cases prev <;> rfl

/-- Claim C6: every partial parameter change through
`handleSearchParams` results in page 1 — even when the partial update
itself carries a page — while the dedicated page-change operation
`handlePageChange` sets the page to its argument. -/
theorem param_change_resets_page (np : ParamsUpdate) (n : Int) (s : ListState) :
    (handleSearchParams np s).params.page = 1 ∧
    (handlePageChange n s).params.page = n :=
  ⟨rfl, rfl⟩

/-- Claim C8: `handleSelectAll` is a toggle over the visible page — when
every visible track is already selected (vacuously so with zero visible
tracks; a no-op when the selection is empty too) it clears the
selection, otherwise it selects exactly the ids of all visible tracks. -/
theorem select_all_toggle (s : ListState) :
    ((∀ t ∈ s.tracks, t.id ∈ s.selectedTrackIds) →
        (handleSelectAll s).selectedTrackIds = []) ∧
    (s.tracks = [] ∧ s.selectedTrackIds = [] → handleSelectAll s = s) ∧
    ((∃ t ∈ s.tracks, t.id ∉ s.selectedTrackIds) →
        (handleSelectAll s).selectedTrackIds = s.tracks.map Track.id) := by
  refine ⟨?_, ?_, ?_⟩
  · intro hall
    simp [handleSelectAll]
    rw [if_pos hall]
  · rintro ⟨htr, hsel⟩
    rcases s with ⟨tr, pm, il, er, sel, pl, pa, rt⟩
    obtain rfl : tr = [] := htr
    obtain rfl : sel = [] := hsel
    rfl
  · rintro ⟨t, ht, hnt⟩
    have hcond : ¬ ∀ x ∈ s.tracks, x.id ∈ s.selectedTrackIds :=
      fun hall => hnt (hall t ht)
    simp [handleSelectAll]
    rw [if_neg hcond]

/-- Claim C9: in both dialogs, attaching an audio file whose media type
is outside the allow-list or whose size exceeds 10 MiB leaves the whole
draft unchanged and produces a validation error message, while a file of
allowed type and size at most 10 MiB is attached and clears the error. -/
theorem audio_file_validation (f : LocalFile) (s : DialogState) :
    ((f.mediaType ∉ ["audio/mpeg", "audio/wav"] ∨ f.size > 10 * 1024 * 1024) →
      (CreateTrackModal.handleFileChange (some f) s).form = s.form ∧
      (∃ msg, (CreateTrackModal.handleFileChange (some f) s).error = some msg) ∧
      (EditTrackModal.handleFileChange (some f) s).form = s.form ∧
      (∃ msg, (EditTrackModal.handleFileChange (some f) s).error = some msg)) ∧
    ((f.mediaType ∈ ["audio/mpeg", "audio/wav"] ∧ f.size ≤ 10 * 1024 * 1024) →
      (CreateTrackModal.handleFileChange (some f) s)
        = { s with form := { s.form with audioFile := some f }, error := none } ∧
      (EditTrackModal.handleFileChange (some f) s)
        = { s with form := { s.form with audioFile := some f }, error := none }) := by
  constructor
  · intro hbad
    rcases hbad with htype | hsize
    · have h1 : ¬ f.mediaType = "audio/mpeg" := fun h => htype (by simp [h])
      have h2 : ¬ f.mediaType = "audio/wav" := fun h => htype (by simp [h])
      refine ⟨?_, ⟨"File must be mp3 or wav", ?_⟩, ?_, ⟨"File must be mp3 or wav", ?_⟩⟩ <;>
        simp [CreateTrackModal.handleFileChange, EditTrackModal.handleFileChange, h1, h2]
    · by_cases ht : f.mediaType ∈ ["audio/mpeg", "audio/wav"]
      · have hor : f.mediaType = "audio/mpeg" ∨ f.mediaType = "audio/wav" := by
          simpa using ht
        rcases hor with h | h <;>
          refine ⟨?_, ⟨"File size must be less than 10MB", ?_⟩, ?_,
              ⟨"File size must be less than 10MB", ?_⟩⟩ <;>
            simp [CreateTrackModal.handleFileChange, EditTrackModal.handleFileChange, h, hsize]
      · have h1 : ¬ f.mediaType = "audio/mpeg" := fun h => ht (by simp [h])
        have h2 : ¬ f.mediaType = "audio/wav" := fun h => ht (by simp [h])
        refine ⟨?_, ⟨"File must be mp3 or wav", ?_⟩, ?_, ⟨"File must be mp3 or wav", ?_⟩⟩ <;>
          simp [CreateTrackModal.handleFileChange, EditTrackModal.handleFileChange, h1, h2]
  · rintro ⟨htype, hsize⟩
    have hor : f.mediaType = "audio/mpeg" ∨ f.mediaType = "audio/wav" := by
      simpa using htype
    have hs : ¬ f.size > 10 * 1024 * 1024 := by omega
    rcases hor with h | h <;> constructor <;>
      simp [CreateTrackModal.handleFileChange, EditTrackModal.handleFileChange, h, hs]

/-- A dialog state with an old error and no chosen audio file, used to
instantiate the validation theorem. -/
def sampleDialogState : DialogState :=
  { form := { title := "t", artist := "a", album := "", genres := [],
              coverImage := "", audioFile := none }
    error := some "old error" }

/-- Witness for C9: a 5-byte `text/plain` file is rejected without
touching the draft, and a 5-byte `audio/mpeg` file is attached and
clears the error. -/
theorem audio_file_validation_witness :
    (CreateTrackModal.handleFileChange (some ⟨"text/plain", 5⟩) sampleDialogState).form
      = sampleDialogState.form ∧
    (EditTrackModal.handleFileChange (some ⟨"text/plain", 5⟩) sampleDialogState).form
      = sampleDialogState.form ∧
    (CreateTrackModal.handleFileChange (some ⟨"audio/mpeg", 5⟩) sampleDialogState).error
      = none ∧
    (CreateTrackModal.handleFileChange (some ⟨"audio/mpeg", 5⟩) sampleDialogState).form.audioFile
      = some ⟨"audio/mpeg", 5⟩ := by
  have hbad := (audio_file_validation ⟨"text/plain", 5⟩ sampleDialogState).1
    (Or.inl (by decide))
  have hgood := (audio_file_validation ⟨"audio/mpeg", 5⟩ sampleDialogState).2
    ⟨by decide, by decide⟩
  refine ⟨hbad.1, hbad.2.2.1, ?_, ?_⟩
  · rw [hgood.1]
  · rw [hgood.1]

/-- Projections of `handleDeleteTrack`: on every remote outcome the
collection is the filter dropping the id, the total is decremented
floored at 0, and the selection loses the id when present. -/
lemma handleDeleteTrack_proj (id : String) (r : Except String Unit) (s : ListState) :
    (handleDeleteTrack id r s).tracks
      = s.tracks.filter (fun track => !(track.id == id)) ∧
    (handleDeleteTrack id r s).paginationMeta.total
      = max 0 (s.paginationMeta.total - 1) ∧
    (handleDeleteTrack id r s).selectedTrackIds
      = (if id ∈ s.selectedTrackIds then
           s.selectedTrackIds.filter (fun trackId => !(trackId == id))
         else s.selectedTrackIds) := by
  cases r <;> by_cases h : id ∈ s.selectedTrackIds <;>
    simp [handleDeleteTrack, deleteTrack, h]

/-- Claim C5: for a track id present on the visible page (with the
ids of the page duplicate-free, as server ids are), the optimistic single
delete removes exactly one entity — the one whose id matches — from the
collection, sets the total to its predecessor floored at 0, and removes
the id from the selection when it was selected, keeping every other
selection entry; this holds on both remote outcomes. -/
theorem delete_one_exact (s : ListState) (id : String) (r : Except String Unit)
    (hmem : id ∈ s.tracks.map Track.id)
    (hids : (s.tracks.map Track.id).Nodup) :
    (handleDeleteTrack id r s).tracks.length + 1 = s.tracks.length ∧
    (∀ t ∈ (handleDeleteTrack id r s).tracks, t.id ≠ id) ∧
    (∀ t ∈ s.tracks, t.id ≠ id → t ∈ (handleDeleteTrack id r s).tracks) ∧
    (handleDeleteTrack id r s).paginationMeta.total
      = max 0 (s.paginationMeta.total - 1) ∧
    id ∉ (handleDeleteTrack id r s).selectedTrackIds ∧
    (∀ x ∈ s.selectedTrackIds, x ≠ id → x ∈ (handleDeleteTrack id r s).selectedTrackIds) ∧
    (∀ x ∈ (handleDeleteTrack id r s).selectedTrackIds, x ∈ s.selectedTrackIds) := by
  obtain ⟨htr, htot, hsel⟩ := handleDeleteTrack_proj id r s
  refine ⟨?_, ?_, ?_, htot, ?_, ?_, ?_⟩
  · rw [htr]
    have hmapeq := map_filter_by_id (fun x => !(x == id)) s.tracks
    have hlen : (s.tracks.filter (fun t => !(t.id == id))).length
        = ((s.tracks.map Track.id).filter (fun x => !(x == id))).length := by
      rw [← hmapeq, List.length_map]
    rw [hlen, ← List.length_map s.tracks Track.id]
    exact length_filter_remove_one _ _ hids hmem
  · rw [htr]
    intro t ht
    have := (List.mem_filter.mp ht).2
    simpa using this
  · rw [htr]
    intro t ht hne
    exact List.mem_filter.mpr ⟨ht, by simpa using hne⟩
  · rw [hsel]
    by_cases h : id ∈ s.selectedTrackIds
    · rw [if_pos h]
      intro hmem2
      have := (List.mem_filter.mp hmem2).2
      simp at this
    · rw [if_neg h]
      exact h
  · rw [hsel]
    intro x hx hne
    by_cases h : id ∈ s.selectedTrackIds
    · rw [if_pos h]
      exact List.mem_filter.mpr ⟨hx, by simpa using hne⟩
    · rw [if_neg h]
      exact hx
  · rw [hsel]
    intro x hx
    by_cases h : id ∈ s.selectedTrackIds
    · rw [if_pos h] at hx
      exact (List.mem_filter.mp hx).1
    · rwa [if_neg h] at hx

/-- A concrete track with an audio file. -/
def trackA : Track :=
  { id := "a", title := "Alpha", artist := "Ann", album := "", genres := []
    coverImage := "", audioFile := some "a.mp3", createdAt := "2024-01-01T00:00:00" }

/-- A concrete track without an audio file. -/
def trackB : Track :=
  { id := "b", title := "Beta", artist := "Bob", album := "", genres := []
    coverImage := "", audioFile := none, createdAt := "2024-01-02T00:00:00" }

/-- A third concrete track. -/
def trackC : Track :=
  { id := "c", title := "Gamma", artist := "Cam", album := "", genres := []
    coverImage := "", audioFile := none, createdAt := "2024-01-03T00:00:00" }

/-- A reachable state with two visible tracks of which the first is
selected: load a page of two tracks, then toggle-select id "a". -/
def twoTracksOneSelected : ListState :=
  handleSelectTrack "a"
    (fetchTracksResult (Except.ok { data := [trackA, trackB], meta := { total := 2, totalPages := 1 } })
      initialState)

/-- Witness for C5: deleting id "a" from the two-track page removes
exactly one track and drops "a" from the selection. -/
theorem delete_one_exact_witness :
    (handleDeleteTrack "a" (Except.ok ()) twoTracksOneSelected).tracks.length + 1
      = twoTracksOneSelected.tracks.length ∧
    "a" ∉ (handleDeleteTrack "a" (Except.ok ()) twoTracksOneSelected).selectedTrackIds ∧
    (handleDeleteTrack "a" (Except.ok ()) twoTracksOneSelected).paginationMeta.total
      = max 0 (twoTracksOneSelected.paginationMeta.total - 1) := by
  have h := delete_one_exact twoTracksOneSelected "a" (Except.ok ())
    (by decide) (by decide)
  exact ⟨h.1, h.2.2.2.2.1, h.2.2.2.1⟩

/-- Claim C3 (the code contradicts it): on a failing remote bulk-delete
request the API client function `deleteTracks` swallows the error and resolves
successfully — unlike `deleteTrack`, which propagates — so the failure
branch of `handleBulkDelete` never runs: evaluated at a concrete state
with two visible tracks and one selected, a failing remote bulk delete
leaves the error slot empty and the refresh counter unchanged, instead
of setting the error message and forcing a reload. -/
theorem bulk_delete_failure_swallowed :
    deleteTracks (Except.error "Network Error") = Except.ok () ∧
    deleteTrack (Except.error "Network Error") = Except.error "Network Error" ∧
    (handleBulkDelete (Except.error "Network Error") twoTracksOneSelected).error = none ∧
    (handleBulkDelete (Except.error "Network Error") twoTracksOneSelected).refreshTrigger
      = twoTracksOneSelected.refreshTrigger := by
  refine ⟨rfl, rfl, ?_, ?_⟩ <;> decide

/-- A reachable state on page 2 whose page holds a single track:
navigate to page 2, then load a page with one track (server total 11). -/
def lastTrackOnPageTwo : ListState :=
  fetchTracksResult (Except.ok { data := [trackB], meta := { total := 11, totalPages := 2 } })
    (handlePageChange 2 initialState)

/-- Counterexample to C4: a successful single delete of the only track
on page 2 leaves the collection empty yet neither decrements the page
nor forces a reload — the "delete leaves the page empty" handling exists
only in the bulk-delete handler. -/
theorem delete_empty_page_cex :
    Reach lastTrackOnPageTwo ∧
    lastTrackOnPageTwo.params.page = 2 ∧
    (handleDeleteTrack "b" (Except.ok ()) lastTrackOnPageTwo).tracks = [] ∧
    (handleDeleteTrack "b" (Except.ok ()) lastTrackOnPageTwo).params.page = 2 ∧
    (handleDeleteTrack "b" (Except.ok ()) lastTrackOnPageTwo).refreshTrigger
      = lastTrackOnPageTwo.refreshTrigger := by
  refine ⟨?_, by decide, by decide, by decide, by decide⟩
  exact Reach.fetch _ _ (Reach.page 2 initialState Reach.init)

/-- Claim C4 as amended: for every bulk delete of a nonempty selection
that leaves the collection of the page empty, a page greater than 1 is
decremented by exactly 1 with no forced reload, and on page 1 the page
stays 1 and a forced reload is issued (refresh counter bumped); this
holds on every remote outcome. Single deletes perform no such page
adjustment. -/
theorem bulk_delete_empty_page (s : ListState) (r : Except String Unit)
    (hne : s.selectedTrackIds ≠ [])
    (hempty : s.tracks.filter (fun track => !(s.selectedTrackIds.contains track.id)) = []) :
    (s.params.page > 1 →
      (handleBulkDelete r s).params.page = s.params.page - 1 ∧
      (handleBulkDelete r s).refreshTrigger = s.refreshTrigger) ∧
    (s.params.page = 1 →
      (handleBulkDelete r s).params.page = 1 ∧
      (handleBulkDelete r s).refreshTrigger = s.refreshTrigger + 1) := by
  have hlen : ¬ s.selectedTrackIds.length = 0 := by
    simpa [List.length_eq_zero] using hne
  unfold handleBulkDelete
  rw [if_neg hlen]
  constructor
  · intro hpage
    cases r <;>
      (simp only [deleteTracks]
       rw [hempty]
       simp only [List.length_nil]
       rw [if_pos (And.intro trivial hpage)]
       exact ⟨rfl, rfl⟩)
  · intro hpage
    have hnotgt : ¬ (True ∧ s.params.page > 1) := by
      rintro ⟨-, hgt⟩
      omega
    cases r <;>
      (simp only [deleteTracks]
       rw [hempty]
       simp only [List.length_nil]
       rw [if_neg hnotgt, if_pos trivial]
       exact ⟨hpage, rfl⟩)

/-- A reachable first-page state with three visible tracks, all
selected via select-all (the bulk-delete scenario of the spec: 3 tracks,
limit 10, page 1). -/
def pageOneAllSelected : ListState :=
  handleSelectAll
    (fetchTracksResult (Except.ok { data := [trackA, trackB, trackC], meta := { total := 3, totalPages := 1 } })
      initialState)

/-- Witness for the amended C4: bulk-deleting all three tracks of the
first page keeps the page at 1 and forces a reload. -/
theorem bulk_delete_empty_page_witness :
    (handleBulkDelete (Except.ok ()) pageOneAllSelected).params.page = 1 ∧
    (handleBulkDelete (Except.ok ()) pageOneAllSelected).refreshTrigger
      = pageOneAllSelected.refreshTrigger + 1 := by
  exact (bulk_delete_empty_page pageOneAllSelected (Except.ok ())
    (by decide) (by decide)).2 (by decide)

/-- A reachable state whose selection is stale: id "a" was selected on a
previous page load, after which a refetch replaced the collection with a
page containing only id "b" (server total 5); the selection still holds
"a", which is not visible. -/
def staleSelectionState : ListState :=
  fetchTracksResult (Except.ok { data := [trackB], meta := { total := 5, totalPages := 1 } })
    (handleSelectTrack "a"
      (fetchTracksResult (Except.ok { data := [trackA], meta := { total := 5, totalPages := 1 } })
        initialState))

/-- Counterexample to C1: in the reachable stale-selection state, a bulk
delete of the selection S = \x7b"a"\x7d removes zero entities from the
visible page (|S ∩ visible| = 0) yet decreases the pagination total by
1, the length of the stale selection list. -/
theorem bulk_delete_total_cex :
    Reach staleSelectionState ∧
    (staleSelectionState.tracks.filter
        (fun track => staleSelectionState.selectedTrackIds.contains track.id)).length = 0 ∧
    (handleBulkDelete (Except.ok ()) staleSelectionState).tracks
      = staleSelectionState.tracks ∧
    (handleBulkDelete (Except.ok ()) staleSelectionState).paginationMeta.total
      = staleSelectionState.paginationMeta.total - 1 := by
  refine ⟨?_, by decide, by decide, by decide⟩
  exact Reach.fetch _ _
    (Reach.selectTrack "a" _ (Reach.fetch _ _ Reach.init) (by decide))

/-- Claim C1 as amended: a bulk delete of a nonempty selection S keeps
exactly the visible tracks whose ids are not in S, clears the selection,
and decreases the total by the length of the selection list, floored at
0 — which equals |S ∩ visible| under the intended invariant: S
duplicate-free and contained in the visible ids, visible ids
duplicate-free, and total at least |S|. -/
theorem bulk_delete_exact (s : ListState) (r : Except String Unit)
    (hne : s.selectedTrackIds ≠ [])
    (hS : s.selectedTrackIds.Nodup)
    (hids : (s.tracks.map Track.id).Nodup)
    (hsub : ∀ x ∈ s.selectedTrackIds, x ∈ s.tracks.map Track.id)
    (htot : (s.selectedTrackIds.length : Int) ≤ s.paginationMeta.total) :
    (handleBulkDelete r s).tracks
      = s.tracks.filter (fun track => !(s.selectedTrackIds.contains track.id)) ∧
    (handleBulkDelete r s).selectedTrackIds = [] ∧
    (handleBulkDelete r s).paginationMeta.total
      = s.paginationMeta.total
        - ((s.tracks.filter (fun track => s.selectedTrackIds.contains track.id)).length : Int) := by
  obtain ⟨htr, hsel, htotal⟩ := handleBulkDelete_proj s r hne
  refine ⟨htr, hsel, ?_⟩
  have hcount : (s.tracks.filter (fun track => s.selectedTrackIds.contains track.id)).length
      = s.selectedTrackIds.length := by
    have hmapeq := map_filter_by_id (fun x => s.selectedTrackIds.contains x) s.tracks
    have hstep : (s.tracks.filter (fun track => s.selectedTrackIds.contains track.id)).length
        = ((s.tracks.map Track.id).filter (fun x => s.selectedTrackIds.contains x)).length := by
      rw [← hmapeq, List.length_map]
    rw [hstep]
    exact length_filter_contains s.selectedTrackIds (s.tracks.map Track.id) hS hids hsub
  rw [htotal, hcount]
  have hnonneg : (0 : Int) ≤ s.paginationMeta.total - s.selectedTrackIds.length := by
    omega
  rw [max_eq_right hnonneg]

/-- Witness for the amended C1: on the first-page state with three
visible tracks all selected, the bulk delete keeps no track, clears the
selection, and decreases the total by |S ∩ visible| = 3. -/
theorem bulk_delete_exact_witness :
    (handleBulkDelete (Except.ok ()) pageOneAllSelected).tracks = [] ∧
    (handleBulkDelete (Except.ok ()) pageOneAllSelected).selectedTrackIds = [] ∧
    (handleBulkDelete (Except.ok ()) pageOneAllSelected).paginationMeta.total
      = pageOneAllSelected.paginationMeta.total - 3 := by
  have h := bulk_delete_exact pageOneAllSelected (Except.ok ())
    (by decide) (by decide) (by decide) (by decide) (by decide)
  refine ⟨?_, h.2.1, ?_⟩
  · rw [h.1]
    decide
  · rw [h.2.2]
    decide

/-- The invariant claimed for the selection set: every selected id is
the id of a track on the currently loaded page. -/
def SelectionInv (s : ListState) : Prop :=
  ∀ id ∈ s.selectedTrackIds, id ∈ s.tracks.map Track.id

/-- Counterexample to C2: the stale-selection state is reachable (select
a visible track, then let a refetch replace the collection), yet its
selection is not a subset of the ids of the loaded page — the fetch handlers
never prune the selection. -/
theorem selection_inv_cex :
    Reach staleSelectionState ∧ ¬ SelectionInv staleSelectionState := by
  constructor
  · exact Reach.fetch _ _
      (Reach.selectTrack "a" _ (Reach.fetch _ _ Reach.init) (by decide))
  · intro h
    exact absurd (h "a" (by decide)) (by decide)

/-- Claim C2 as amended: the selection-subset invariant is preserved by
parameter changes, page changes, select (of a visible id), select-all,
single delete (on both remote outcomes) and bulk delete — but not by
list fetches, which replace the collection without pruning the
selection. -/
theorem selection_inv_preserved (s : ListState) (hinv : SelectionInv s) :
    (∀ np, SelectionInv (handleSearchParams np s)) ∧
    (∀ n, SelectionInv (handlePageChange n s)) ∧
    (∀ id, id ∈ s.tracks.map Track.id → SelectionInv (handleSelectTrack id s)) ∧
    SelectionInv (handleSelectAll s) ∧
    (∀ id r, SelectionInv (handleDeleteTrack id r s)) ∧
    (∀ r, SelectionInv (handleBulkDelete r s)) := by
  refine ⟨?_, ?_, ?_, ?_, ?_, ?_⟩
  · intro np x hx
    exact hinv x hx
  · intro n x hx
    exact hinv x hx
  · intro id hid x hx
    show x ∈ s.tracks.map Track.id
    unfold handleSelectTrack at hx
    by_cases h : s.selectedTrackIds.contains id = true
    · rw [if_pos h] at hx
      exact hinv x (List.mem_filter.mp hx).1
    · rw [if_neg h] at hx
      rcases List.mem_append.mp hx with hx1 | hx1
      · exact hinv x hx1
      · rcases List.mem_singleton.mp hx1 with rfl
        exact hid
  · intro x hx
    unfold handleSelectAll at hx ⊢
    by_cases h : (s.tracks.all (fun track => s.selectedTrackIds.contains track.id)) = true
    · rw [if_pos h] at hx
      exact absurd hx (List.not_mem_nil x)
    · rw [if_neg h] at hx ⊢
      exact hx
  · intro id r x hx
    obtain ⟨htr, -, hsel⟩ := handleDeleteTrack_proj id r s
    rw [hsel] at hx
    have hx2 : x ∈ s.selectedTrackIds ∧ x ≠ id := by
      by_cases h : id ∈ s.selectedTrackIds
      · rw [if_pos h] at hx
        obtain ⟨hx1, hxne⟩ := List.mem_filter.mp hx
        refine ⟨hx1, ?_⟩
        simpa using hxne
      · rw [if_neg h] at hx
        refine ⟨hx, ?_⟩
        rintro rfl
        exact h hx
    obtain ⟨t, ht, hidx⟩ := List.mem_map.mp (hinv x hx2.1)
    rw [htr]
    refine List.mem_map.mpr ⟨t, List.mem_filter.mpr ⟨ht, ?_⟩, hidx⟩
    simpa [hidx] using hx2.2
  · intro r x hx
    by_cases hne : s.selectedTrackIds = []
    · have heq : handleBulkDelete r s = s := by
        unfold handleBulkDelete
        rw [if_pos (by rw [hne]; rfl : s.selectedTrackIds.length = 0)]
      rw [heq] at hx
      rw [heq]
      exact hinv x hx
    · obtain ⟨-, hsel, -⟩ := handleBulkDelete_proj s r hne
      rw [hsel] at hx
      exact absurd hx (List.not_mem_nil x)

/-- Witness for the amended C2: starting from the reachable two-track
state whose selection is the visible id "a", a bulk delete leaves the
selection invariant intact. -/
theorem selection_inv_preserved_witness :
    SelectionInv (handleBulkDelete (Except.ok ()) twoTracksOneSelected) := by
  have hinv : SelectionInv twoTracksOneSelected := by
    unfold SelectionInv
    decide
  exact (selection_inv_preserved twoTracksOneSelected hinv).2.2.2.2.2 (Except.ok ())

/-- The track with id "a" after its stored audio file was removed on the
server. -/
def trackANoAudio : Track :=
  { trackA with audioFile := none }

/-- A reachable state in which track "a" is playing but a refetch has
reloaded it without an audio file (its stored file was deleted on the
server between the fetches). -/
def playingTrackReloadedWithoutAudio : ListState :=
  fetchTracksResult (Except.ok { data := [trackANoAudio], meta := { total := 1, totalPages := 1 } })
    (handlePlayTrack "a"
      (fetchTracksResult (Except.ok { data := [trackA], meta := { total := 1, totalPages := 1 } })
        initialState))

/-- Counterexample to C7: in a reachable state the playback pointer is
set to "a" while the loaded track with that id has no audio file — the
pointer is not cleared or re-validated when the collection changes. -/
theorem playback_pointer_cex :
    Reach playingTrackReloadedWithoutAudio ∧
    playingTrackReloadedWithoutAudio.playingTrackId = some "a" ∧
    ¬ (∀ id, playingTrackReloadedWithoutAudio.playingTrackId = some id →
        ∀ t ∈ playingTrackReloadedWithoutAudio.tracks, t.id = id → t.audioFile.isSome) := by
  refine ⟨?_, by decide, ?_⟩
  · exact Reach.fetch _ _
      (Reach.play "a" _ (Reach.fetch _ _ Reach.init) ⟨trackA, by decide, rfl, rfl⟩)
  · intro h
    exact absurd (h "a" (by decide) trackANoAudio (by decide) (by decide)) (by decide)

/-- Claim C7 as amended: in every reachable state the playback pointer
holds at most one id, and the play toggle, invoked on a visible track
with an audio file (the UI disables it otherwise), leaves the pointer
either cleared or referencing an audio-backed visible track; the
invariant is not maintained across collection replacements. -/
theorem playback_pointer_invariant (s : ListState) (_hs : Reach s) :
    (∀ a b, s.playingTrackId = some a → s.playingTrackId = some b → a = b) ∧
    (∀ id, (∃ t ∈ s.tracks, t.id = id ∧ t.audioFile.isSome) →
      ∀ id2, (handlePlayTrack id s).playingTrackId = some id2 →
        ∃ t ∈ s.tracks, t.id = id2 ∧ t.audioFile.isSome) := by
  constructor
  · intro a b ha hb
    rw [ha] at hb
    exact Option.some.inj hb
  · intro id hex id2 h2
    unfold handlePlayTrack at h2
    by_cases h : s.playingTrackId = some id
    · rw [if_pos h] at h2
      exact Option.noConfusion h2
    · rw [if_neg h] at h2
      have hid : id = id2 := Option.some.inj h2
      rw [← hid]
      exact hex

/-- Witness for the amended C7: applied at the reachable one-track state
with an audio-backed track "a", toggling play yields a pointer that
references an audio-backed visible track. -/
theorem playback_pointer_invariant_witness :
    ∃ t ∈ (fetchTracksResult
        (Except.ok { data := [trackA], meta := { total := 1, totalPages := 1 } })
        initialState).tracks,
      t.id = "a" ∧ t.audioFile.isSome := by
  exact (playback_pointer_invariant _ (Reach.fetch _ _ Reach.init)).2 "a"
    ⟨trackA, by decide, rfl, rfl⟩ "a" (by decide)

/-- Witness for C8: on the two-track state with only "a" selected,
select-all selects exactly the ids of all visible tracks. -/
theorem select_all_toggle_witness :
    (handleSelectAll twoTracksOneSelected).selectedTrackIds
      = twoTracksOneSelected.tracks.map Track.id ∧
    (handleSelectAll twoTracksOneSelected).selectedTrackIds = ["a", "b"] := by
  have h := (select_all_toggle twoTracksOneSelected).2.2 ⟨trackB, by decide, by decide⟩
  exact ⟨h, h.trans (by decide)⟩
